import Mathlib

/-!
Verification of `cpp-toolbox/unique_id_generator`.

The repository contains four components, each shallowly embedded here:

* `IdGenerator` (current, `unsigned int` based): unbounded recycling
  allocator with a FIFO reclaimed queue, a wrap-around check on the
  fresh counter, and a lenient (silent no-op) reclaim of ids not in use.
* `UniqueIDGenerator` (deprecated, `int` based): unbounded recycling
  allocator whose `reclaim_id` throws `std::invalid_argument` on an id
  that is not currently in use.
* `BoundedUniqueIDGenerator`: fixed-capacity allocator; the constructor
  throws on non-positive capacity and otherwise pre-populates the
  available queue with `0 .. max_value-1`; `get_id` throws when the
  queue is empty; `reclaim_id` throws on out-of-range or unused ids.
* `GlobalUIDGenerator` (also compiled as the singleton
  `UniqueIDGenerator::generate` in `unique_id_generator.cpp`): a
  process-wide counter with static fields `current_id` and
  `last_generated_id`, both zero-initialised.

C++ `unsigned int` is modelled as `Nat` with arithmetic taken modulo
`2^32` where the source can overflow; C++ `int` as `Int`.
`std::unordered_set` is modelled as a `Finset`; `std::queue` as a
`List` whose head is the queue front and whose appends are pushes to
the back.  A C++ function that can throw is modelled as returning an
`Except` value; a method that throws before mutating any field returns
the unchanged state alongside the error, mirroring the fact that the
C++ object survives the exception untouched.
-/

/-- Error taxonomy of the spec, naming the three exceptions thrown by the
source: `std::invalid_argument` from the bounded constructor
(`InvalidCapacity`), `std::runtime_error` from bounded `get_id`
(`CapacityExhausted`), and `std::invalid_argument` from `reclaim_id`
(`InvalidReclaim`). -/
inductive IdError where
  | invalidCapacity
  | capacityExhausted
  | invalidReclaim
deriving DecidableEq, Repr

/-- `std::numeric_limits<unsigned int>::max()`, i.e. `2^32 - 1`. -/
def UINT_MAX : Nat := 4294967295

/-- State of the current (non-deprecated) unbounded allocator
`IdGenerator` in `unique_id_generator.cpp`: fields `next_id`,
`used_ids`, `reclaimed_ids`. -/
structure IdGenerator where
  next_id : Nat
  used_ids : Finset Nat
  reclaimed_ids : List Nat
deriving DecidableEq

/-- The default-constructed `IdGenerator`: `next_id = 0`, both
containers empty. -/
def IdGenerator.init : IdGenerator := ⟨0, ∅, []⟩

/-- `IdGenerator::get_id`: if the reclaimed queue is non-empty, pop and
use its front; otherwise use `next_id++` (modulo `2^32`, as `unsigned`),
then reset `next_id` to 0 if it has reached `UINT_MAX`.  The id is
inserted into `used_ids` and returned.  Logging calls are ignored as
side-effect free for the allocator state. -/
def IdGenerator.get_id (g : IdGenerator) : Nat × IdGenerator :=
  match g.reclaimed_ids with
  | id :: rest =>
      (id, { g with reclaimed_ids := rest, used_ids := insert id g.used_ids })
  | [] =>
      let id := g.next_id
      let incremented := (g.next_id + 1) % 4294967296
      let wrapped := if incremented = UINT_MAX then 0 else incremented
      (id, { g with next_id := wrapped, used_ids := insert id g.used_ids })

/-- `IdGenerator::reclaim_id`: if `id` is in `used_ids`, erase it and
push it to the back of the reclaimed queue; otherwise do nothing. -/
def IdGenerator.reclaim_id (g : IdGenerator) (id : Nat) : IdGenerator :=
  if id ∈ g.used_ids then
    { g with used_ids := g.used_ids.erase id,
             reclaimed_ids := g.reclaimed_ids ++ [id] }
  else g

/-- `IdGenerator::is_used`: membership test against `used_ids`. -/
def IdGenerator.is_used (g : IdGenerator) (id : Nat) : Bool :=
  id ∈ g.used_ids

/-- State of the deprecated unbounded allocator `UniqueIDGenerator`
(`int` based, strict reclaim). -/
structure UniqueIDGenerator where
  next_id : Int
  used_ids : Finset Int
  reclaimed_ids : List Int
deriving DecidableEq

/-- The default-constructed deprecated `UniqueIDGenerator`. -/
def UniqueIDGenerator.init : UniqueIDGenerator := ⟨0, ∅, []⟩

/-- Deprecated `UniqueIDGenerator::get_id`: front of the reclaimed
queue if non-empty, else `next_id++`. -/
def UniqueIDGenerator.get_id (g : UniqueIDGenerator) :
    Int × UniqueIDGenerator :=
  match g.reclaimed_ids with
  | id :: rest =>
      (id, { g with reclaimed_ids := rest, used_ids := insert id g.used_ids })
  | [] =>
      (g.next_id, { g with next_id := g.next_id + 1,
                           used_ids := insert g.next_id g.used_ids })

/-- Deprecated `UniqueIDGenerator::reclaim_id`: throws
`std::invalid_argument` (`InvalidReclaim`) if `id` is not in
`used_ids` — before any mutation, so the state component is returned
unchanged; otherwise erases it from `used_ids` and pushes it to the
back of the reclaimed queue. -/
def UniqueIDGenerator.reclaim_id (g : UniqueIDGenerator) (id : Int) :
    Except IdError Unit × UniqueIDGenerator :=
  if id ∈ g.used_ids then
    (Except.ok (), { g with used_ids := g.used_ids.erase id,
                            reclaimed_ids := g.reclaimed_ids ++ [id] })
  else
    (Except.error IdError.invalidReclaim, g)

/-- State of `BoundedUniqueIDGenerator`: fields `max_value`, `next_id`
(set to 0 by the constructor and never touched again), the FIFO queue
`available_ids` and the set `used_ids`. -/
structure BoundedUniqueIDGenerator where
  max_value : Int
  next_id : Int
  available_ids : List Int
  used_ids : Finset Int
deriving DecidableEq

/-- The `BoundedUniqueIDGenerator(int max_value)` constructor: throws
`std::invalid_argument` (`InvalidCapacity`) if `max_value ≤ 0`, so no
object is produced; otherwise pushes `0, 1, ..., max_value - 1` in
ascending order onto `available_ids`, with `used_ids` empty. -/
def BoundedUniqueIDGenerator.construct (max_value : Int) :
    Except IdError BoundedUniqueIDGenerator :=
  if max_value ≤ 0 then
    Except.error IdError.invalidCapacity
  else
    Except.ok { max_value := max_value, next_id := 0,
                available_ids := (List.range max_value.toNat).map Int.ofNat,
                used_ids := ∅ }

/-- `BoundedUniqueIDGenerator::get_id`: throws `std::runtime_error`
(`CapacityExhausted`) when `available_ids` is empty — before any
mutation, so the state is returned unchanged; otherwise pops the front
of `available_ids`, inserts it into `used_ids` and returns it. -/
def BoundedUniqueIDGenerator.get_id (g : BoundedUniqueIDGenerator) :
    Except IdError Int × BoundedUniqueIDGenerator :=
  match g.available_ids with
  | [] => (Except.error IdError.capacityExhausted, g)
  | id :: rest =>
      (Except.ok id,
       { g with available_ids := rest, used_ids := insert id g.used_ids })

/-- `BoundedUniqueIDGenerator::reclaim_id`: throws
`std::invalid_argument` (`InvalidReclaim`) when `id_value < 0`,
`id_value ≥ max_value`, or `id_value` is not in `used_ids` — before any
mutation; otherwise erases it from `used_ids` and pushes it onto the
back of `available_ids`. -/
def BoundedUniqueIDGenerator.reclaim_id (g : BoundedUniqueIDGenerator)
    (id_value : Int) : Except IdError Unit × BoundedUniqueIDGenerator :=
  if id_value < 0 ∨ g.max_value ≤ id_value ∨ id_value ∉ g.used_ids then
    (Except.error IdError.invalidReclaim, g)
  else
    (Except.ok (), { g with used_ids := g.used_ids.erase id_value,
                            available_ids := g.available_ids ++ [id_value] })

/-- State of the process-wide singleton counter `GlobalUIDGenerator`
(identically, the two-static-field `UniqueIDGenerator::generate`
variant in `unique_id_generator.cpp`): static `current_id` and
`last_generated_id`. -/
structure GlobalUIDGenerator where
  current_id : Int
  last_generated_id : Int
deriving DecidableEq

/-- Zero-initialised statics at program start:
`int GlobalUIDGenerator::current_id = 0;`
`int GlobalUIDGenerator::last_generated_id = 0;`. -/
def GlobalUIDGenerator.init : GlobalUIDGenerator := ⟨0, 0⟩

/-- `GlobalUIDGenerator::get_id` (= `UniqueIDGenerator::generate`):
increment `current_id`, copy it into `last_generated_id`, return it. -/
def GlobalUIDGenerator.get_id (s : GlobalUIDGenerator) :
    Int × GlobalUIDGenerator :=
  let c := s.current_id + 1
  (c, ⟨c, c⟩)

/-- Results and final state of `n` consecutive `get_id` calls on the
singleton counter. -/
def GlobalUIDGenerator.getN (s : GlobalUIDGenerator) :
    Nat → List Int × GlobalUIDGenerator
  | 0 => ([], s)
  | n + 1 =>
      let (id, s') := s.get_id
      let (ids, s'') := s'.getN n
      (id :: ids, s'')

/-- Results and final state of `n` consecutive `get_id` calls on a
bounded allocator; each call's outcome (`ok id` or `error`) is
recorded in order. -/
def BoundedUniqueIDGenerator.allocN (g : BoundedUniqueIDGenerator) :
    Nat → List (Except IdError Int) × BoundedUniqueIDGenerator
  | 0 => ([], g)
  | n + 1 =>
      let (r, g') := g.get_id
      let (rs, g'') := g'.allocN n
      (r :: rs, g'')

/-- One caller-visible operation on the bounded allocator. -/
inductive BoundedOp where
  | alloc
  | reclaim (id : Int)
deriving DecidableEq

/-- Apply one operation to a bounded allocator state, keeping the
resulting state whether the call succeeded or threw. -/
def BoundedUniqueIDGenerator.applyOp (g : BoundedUniqueIDGenerator) :
    BoundedOp → BoundedUniqueIDGenerator
  | BoundedOp.alloc => g.get_id.2
  | BoundedOp.reclaim id => (g.reclaim_id id).2

/-- Run a whole sequence of allocate/reclaim operations. -/
def BoundedUniqueIDGenerator.runOps (g : BoundedUniqueIDGenerator)
    (ops : List BoundedOp) : BoundedUniqueIDGenerator :=
  ops.foldl BoundedUniqueIDGenerator.applyOp g

/-! ### Helper lemmas -/

/-- `n` singleton calls from state `s` return
`s.current_id + 1, s.current_id + 2, ...` and advance `current_id` by
`n`. -/
theorem GlobalUIDGenerator.getN_spec (n : Nat) :
    ∀ s : GlobalUIDGenerator,
      (s.getN n).1 =
        (List.range n).map (fun i : Nat => s.current_id + 1 + (i : Int)) ∧
      (s.getN n).2.current_id = s.current_id + n := by
  induction n with
  | zero => intro s; simp [GlobalUIDGenerator.getN]
  | succ n ih =>
      intro s
      obtain ⟨h1, h2⟩ := ih ⟨s.current_id + 1, s.current_id + 1⟩
      constructor
      · simp only [GlobalUIDGenerator.getN, GlobalUIDGenerator.get_id, h1,
          List.range_succ_eq_map, List.map_cons, List.map_map]
        congr 1
        · simp
        · refine List.map_congr_left ?_
          intro a _
          simp only [Function.comp_apply]
          push_cast
          ring
      · simp only [GlobalUIDGenerator.getN, GlobalUIDGenerator.get_id, h2]
        push_cast
        ring

/-! ### Claims -/

/-- C8: each singleton `get_id` call increments the shared counter and
returns the new value; from the zero-initialised start the first call
returns 1, and `n` consecutive calls return `1, 2, ..., n`, a strictly
increasing sequence with no repeats. -/
theorem C8_singleton_monotone :
    (∀ s : GlobalUIDGenerator,
       (s.get_id).1 = s.current_id + 1 ∧
       (s.get_id).2.current_id = s.current_id + 1) ∧
    (GlobalUIDGenerator.init.get_id).1 = 1 ∧
    ∀ n : Nat,
      (GlobalUIDGenerator.init.getN n).1 =
        (List.range n).map (fun i : Nat => (i : Int) + 1) ∧
      (GlobalUIDGenerator.init.getN n).1.Pairwise (· < ·) := by
  refine ⟨fun s => ⟨rfl, rfl⟩, rfl, fun n => ?_⟩
  obtain ⟨h1, -⟩ := GlobalUIDGenerator.getN_spec n GlobalUIDGenerator.init
  have hmap : (GlobalUIDGenerator.init.getN n).1 =
      (List.range n).map (fun i : Nat => (i : Int) + 1) := by
    rw [h1]
    refine List.map_congr_left ?_
    intro a _
    simp [GlobalUIDGenerator.init]
    ring
  refine ⟨hmap, ?_⟩
  rw [hmap]
  refine List.Pairwise.map _ ?_ (List.pairwise_lt_range n)
  intro a b hab
  omega

/-- C10: the singleton's `last_generated_id` is 0 before any call, and
after every `get_id`/`generate` call it equals both the returned value
and the private `current_id` counter. -/
theorem C10_last_generated_id_tracks :
    GlobalUIDGenerator.init.last_generated_id = 0 ∧
    ∀ s : GlobalUIDGenerator,
      (s.get_id).2.last_generated_id = (s.get_id).1 ∧
      (s.get_id).2.last_generated_id = (s.get_id).2.current_id := by
  exact ⟨rfl, fun s => ⟨rfl, rfl⟩⟩

/-- C7: `IdGenerator::get_id` is total — every state yields an
identifier (registered in the used set), with no error path in either
the pool branch or the fresh branch. -/
theorem C7_unbounded_alloc_total :
    ∀ g : IdGenerator, ∃ id : Nat, ∃ g' : IdGenerator,
      g.get_id = (id, g') ∧ id ∈ g'.used_ids := by
  intro g
  refine ⟨(g.get_id).1, (g.get_id).2, rfl, ?_⟩
  cases hq : g.reclaimed_ids with
  | nil => simp [IdGenerator.get_id, hq]
  | cons x rest => simp [IdGenerator.get_id, hq]

/-- C6: when the fresh counter of the unbounded allocator reaches
`UINT_MAX` (i.e. it is incremented from `UINT_MAX - 1`), `get_id` still
returns an identifier normally — the wrap is not surfaced as an error —
and `next_id` is wrapped back to 0. -/
theorem C6_fresh_counter_wraps (g : IdGenerator)
    (hq : g.reclaimed_ids = []) (hn : g.next_id = UINT_MAX - 1) :
    (g.get_id).1 = UINT_MAX - 1 ∧ (g.get_id).2.next_id = 0 := by
  have hmod : (g.next_id + 1) % 4294967296 = UINT_MAX := by
    rw [hn]
    decide
  constructor
  · simp [IdGenerator.get_id, hq, hn]
  · simp [IdGenerator.get_id, hq, hmod]

/-- C6 witness: the concrete state with `next_id = UINT_MAX - 1` and
empty containers wraps to 0 while returning `UINT_MAX - 1`. -/
theorem C6_fresh_counter_wraps_witness :
    ((IdGenerator.mk (UINT_MAX - 1) ∅ []).get_id).1 = UINT_MAX - 1 ∧
    ((IdGenerator.mk (UINT_MAX - 1) ∅ []).get_id).2.next_id = 0 :=
  C6_fresh_counter_wraps (IdGenerator.mk (UINT_MAX - 1) ∅ []) rfl rfl

/-- C9: reclaiming an id not in use is a silent no-op in the lenient
variant (`IdGenerator`) and fails with `InvalidReclaim`, state
unchanged, in the strict variant (deprecated `UniqueIDGenerator`);
reclaiming an id that is in use moves it from the used set to the back
of the free pool in both variants. -/
theorem C9_unbounded_reclaim_variants :
    (∀ (g : IdGenerator) (id : Nat),
       (id ∉ g.used_ids → g.reclaim_id id = g) ∧
       (id ∈ g.used_ids →
          g.reclaim_id id =
            { g with used_ids := g.used_ids.erase id,
                     reclaimed_ids := g.reclaimed_ids ++ [id] })) ∧
    (∀ (h : UniqueIDGenerator) (id : Int),
       (id ∉ h.used_ids →
          (h.reclaim_id id).1 = Except.error IdError.invalidReclaim ∧
          (h.reclaim_id id).2 = h) ∧
       (id ∈ h.used_ids →
          (h.reclaim_id id).1 = Except.ok () ∧
          (h.reclaim_id id).2 =
            { h with used_ids := h.used_ids.erase id,
                     reclaimed_ids := h.reclaimed_ids ++ [id] })) := by
  constructor
  · intro g id
    constructor
    · intro hid
      simp [IdGenerator.reclaim_id, hid]
    · intro hid
      simp [IdGenerator.reclaim_id, hid]
  · intro h id
    constructor
    · intro hid
      constructor <;> simp [UniqueIDGenerator.reclaim_id, hid]
    · intro hid
      constructor <;> simp [UniqueIDGenerator.reclaim_id, hid]

/-- C9 witness: with `{5}` in use, reclaiming 7 is a no-op (lenient) or
an `InvalidReclaim` error with unchanged state (strict), while
reclaiming 5 moves it to the free pool in both variants. -/
theorem C9_unbounded_reclaim_variants_witness :
    (IdGenerator.mk 0 {5} []).reclaim_id 7 = IdGenerator.mk 0 {5} [] ∧
    (IdGenerator.mk 0 {5} []).reclaim_id 5 =
      IdGenerator.mk 0 (({5} : Finset Nat).erase 5) [5] ∧
    ((UniqueIDGenerator.mk 0 {5} []).reclaim_id 7).1 =
      Except.error IdError.invalidReclaim ∧
    ((UniqueIDGenerator.mk 0 {5} []).reclaim_id 7).2 =
      UniqueIDGenerator.mk 0 {5} [] ∧
    ((UniqueIDGenerator.mk 0 {5} []).reclaim_id 5).2 =
      UniqueIDGenerator.mk 0 (({5} : Finset Int).erase 5) [5] :=
  ⟨(C9_unbounded_reclaim_variants.1 (IdGenerator.mk 0 {5} []) 7).1 (by decide),
   (C9_unbounded_reclaim_variants.1 (IdGenerator.mk 0 {5} []) 5).2 (by decide),
   ((C9_unbounded_reclaim_variants.2 (UniqueIDGenerator.mk 0 {5} []) 7).1
      (by decide)).1,
   ((C9_unbounded_reclaim_variants.2 (UniqueIDGenerator.mk 0 {5} []) 7).1
      (by decide)).2,
   ((C9_unbounded_reclaim_variants.2 (UniqueIDGenerator.mk 0 {5} []) 5).2
      (by decide)).2⟩

/-- C3: for the unbounded allocator, `get_id` with a non-empty pool
returns the pool's front (the oldest reclaimed id) and leaves the fresh
counter alone; after reclaiming an in-use id `X` with no other reclaims
pending, the next `get_id` returns `X`; with an empty pool, `get_id`
returns `next_id` and increments it, except at the documented wrap
boundary where the counter becomes 0 instead of `UINT_MAX`. -/
theorem C3_unbounded_fifo_reuse (g : IdGenerator) :
    (∀ x rest, g.reclaimed_ids = x :: rest →
       (g.get_id).1 = x ∧ (g.get_id).2.reclaimed_ids = rest ∧
       (g.get_id).2.next_id = g.next_id) ∧
    (g.reclaimed_ids = [] →
       (g.get_id).1 = g.next_id ∧
       (g.next_id + 1 < UINT_MAX → (g.get_id).2.next_id = g.next_id + 1) ∧
       (g.next_id + 1 = UINT_MAX → (g.get_id).2.next_id = 0)) ∧
    (∀ X, X ∈ g.used_ids → g.reclaimed_ids = [] →
       ((g.reclaim_id X).get_id).1 = X) := by
  refine ⟨?_, ?_, ?_⟩
  · intro x rest hq
    refine ⟨?_, ?_, ?_⟩ <;> simp [IdGenerator.get_id, hq]
  · intro hq
    refine ⟨?_, ?_, ?_⟩
    · simp [IdGenerator.get_id, hq]
    · intro hlt
      have hmod : (g.next_id + 1) % 4294967296 = g.next_id + 1 :=
        Nat.mod_eq_of_lt (by unfold UINT_MAX at hlt; omega)
      have hne : (g.next_id + 1) % 4294967296 ≠ UINT_MAX := by
        rw [hmod]
        unfold UINT_MAX at hlt ⊢
        omega
      simp [IdGenerator.get_id, hq, hmod, hne]
      unfold UINT_MAX at hlt ⊢
      omega
    · intro heq
      have hmod : (g.next_id + 1) % 4294967296 = UINT_MAX := by
        rw [heq]
        decide
      simp [IdGenerator.get_id, hq, hmod]
  · intro X hX hq
    simp [IdGenerator.reclaim_id, hX, IdGenerator.get_id, hq]

/-- C3 witness: with pool `[4, 9]` the next id is the front 4 and the
counter is untouched; with an empty pool and `next_id = 5` the next id
is 5 and the counter becomes 6; at the wrap boundary the counter
becomes 0; reclaiming the in-use id 3 with an empty pool makes the
next allocation return 3. -/
theorem C3_unbounded_fifo_reuse_witness :
    ((IdGenerator.mk 5 ∅ [4, 9]).get_id).1 = 4 ∧
    ((IdGenerator.mk 5 ∅ [4, 9]).get_id).2.reclaimed_ids = [9] ∧
    ((IdGenerator.mk 5 ∅ [4, 9]).get_id).2.next_id = 5 ∧
    ((IdGenerator.mk 5 ∅ []).get_id).1 = 5 ∧
    ((IdGenerator.mk 5 ∅ []).get_id).2.next_id = 6 ∧
    ((IdGenerator.mk (UINT_MAX - 1) ∅ []).get_id).2.next_id = 0 ∧
    (((IdGenerator.mk 5 {3} []).reclaim_id 3).get_id).1 = 3 :=
  ⟨((C3_unbounded_fifo_reuse (IdGenerator.mk 5 ∅ [4, 9])).1 4 [9] rfl).1,
   ((C3_unbounded_fifo_reuse (IdGenerator.mk 5 ∅ [4, 9])).1 4 [9] rfl).2.1,
   ((C3_unbounded_fifo_reuse (IdGenerator.mk 5 ∅ [4, 9])).1 4 [9] rfl).2.2,
   ((C3_unbounded_fifo_reuse (IdGenerator.mk 5 ∅ [])).2.1 rfl).1,
   ((C3_unbounded_fifo_reuse (IdGenerator.mk 5 ∅ [])).2.1 rfl).2.1 (by decide),
   ((C3_unbounded_fifo_reuse (IdGenerator.mk (UINT_MAX - 1) ∅ [])).2.1
      rfl).2.2 (by decide),
   (C3_unbounded_fifo_reuse (IdGenerator.mk 5 {3} [])).2.2 3 (by decide) rfl⟩

/-- C4: constructing a bounded allocator with non-positive capacity
fails with `InvalidCapacity` (no allocator is produced); with capacity
`c > 0` it succeeds, the free pool holds exactly the identifiers
`0, 1, ..., c - 1` in ascending order, and the used set is empty. -/
theorem C4_construct_validation (c : Int) :
    (c ≤ 0 → BoundedUniqueIDGenerator.construct c =
      Except.error IdError.invalidCapacity) ∧
    (0 < c → ∃ g : BoundedUniqueIDGenerator,
      BoundedUniqueIDGenerator.construct c = Except.ok g ∧
      g.available_ids = (List.range c.toNat).map Int.ofNat ∧
      List.Pairwise (· < ·) g.available_ids ∧
      g.available_ids.length = c.toNat ∧
      (∀ id : Int, id ∈ g.available_ids ↔ 0 ≤ id ∧ id < c) ∧
      g.used_ids = ∅) := by
  constructor
  · intro hc
    simp [BoundedUniqueIDGenerator.construct, hc]
  · intro hc
    have hnot : ¬ c ≤ 0 := not_le.mpr hc
    refine ⟨{ max_value := c, next_id := 0,
              available_ids := (List.range c.toNat).map Int.ofNat,
              used_ids := ∅ }, ?_, rfl, ?_, ?_, ?_, rfl⟩
    · simp [BoundedUniqueIDGenerator.construct, hnot]
    · refine List.Pairwise.map _ ?_ (List.pairwise_lt_range c.toNat)
      intro a b hab
      exact Int.ofNat_lt.mpr hab
    · simp
    · intro id
      simp only [List.mem_map, List.mem_range, Int.ofNat_eq_natCast]
      constructor
      · rintro ⟨k, hk, rfl⟩
        omega
      · rintro ⟨h0, hlt⟩
        exact ⟨id.toNat, by omega, by omega⟩

/-- C4 witness: capacity `-5` is rejected with `InvalidCapacity`, and
capacity 3 yields the pool `[0, 1, 2]` with an empty used set. -/
theorem C4_construct_validation_witness :
    BoundedUniqueIDGenerator.construct (-5) =
      Except.error IdError.invalidCapacity ∧
    BoundedUniqueIDGenerator.construct 0 =
      Except.error IdError.invalidCapacity ∧
    ∃ g : BoundedUniqueIDGenerator,
      BoundedUniqueIDGenerator.construct 3 = Except.ok g ∧
      g.available_ids = (List.range (3 : Int).toNat).map Int.ofNat ∧
      List.Pairwise (· < ·) g.available_ids ∧
      g.available_ids.length = (3 : Int).toNat ∧
      (∀ id : Int, id ∈ g.available_ids ↔ 0 ≤ id ∧ id < 3) ∧
      g.used_ids = ∅ :=
  ⟨(C4_construct_validation (-5)).1 (by decide),
   (C4_construct_validation 0).1 (by decide),
   (C4_construct_validation 3).2 (by decide)⟩

/-- C5: bounded `reclaim_id` fails with `InvalidReclaim` exactly when
the id is outside `[0, max_value)` or not in the used set; on failure
the state is unchanged, and on success the id moves from the used set
to the back of the free pool. -/
theorem C5_bounded_reclaim (g : BoundedUniqueIDGenerator) (id : Int) :
    ((g.reclaim_id id).1 = Except.error IdError.invalidReclaim ↔
      (id < 0 ∨ g.max_value ≤ id ∨ id ∉ g.used_ids)) ∧
    ((id < 0 ∨ g.max_value ≤ id ∨ id ∉ g.used_ids) →
      (g.reclaim_id id).2 = g) ∧
    (0 ≤ id → id < g.max_value → id ∈ g.used_ids →
      (g.reclaim_id id).1 = Except.ok () ∧
      (g.reclaim_id id).2 =
        { g with used_ids := g.used_ids.erase id,
                 available_ids := g.available_ids ++ [id] }) := by
  refine ⟨?_, ?_, ?_⟩
  · constructor
    · intro herr
      by_contra hcond
      simp [BoundedUniqueIDGenerator.reclaim_id, hcond] at herr
    · intro hcond
      simp [BoundedUniqueIDGenerator.reclaim_id, hcond]
  · intro hcond
    simp [BoundedUniqueIDGenerator.reclaim_id, hcond]
  · intro h0 hlt hmem
    have hcond : ¬ (id < 0 ∨ g.max_value ≤ id ∨ id ∉ g.used_ids) := by
      push_neg
      exact ⟨by omega, by omega, hmem⟩
    constructor <;> simp [BoundedUniqueIDGenerator.reclaim_id, hcond]

/-- C5 witness: in a capacity-3 state with `{1}` in use, reclaiming 2
(not in use), 5 (out of range) and -1 (negative) all fail with the
state unchanged, while reclaiming 1 succeeds and appends 1 to the
pool. -/
theorem C5_bounded_reclaim_witness :
    (((BoundedUniqueIDGenerator.mk 3 0 [0, 2] {1}).reclaim_id 2).1 =
      Except.error IdError.invalidReclaim) ∧
    (((BoundedUniqueIDGenerator.mk 3 0 [0, 2] {1}).reclaim_id 5).2 =
      BoundedUniqueIDGenerator.mk 3 0 [0, 2] {1}) ∧
    (((BoundedUniqueIDGenerator.mk 3 0 [0, 2] {1}).reclaim_id (-1)).2 =
      BoundedUniqueIDGenerator.mk 3 0 [0, 2] {1}) ∧
    (((BoundedUniqueIDGenerator.mk 3 0 [0, 2] {1}).reclaim_id 1).1 =
      Except.ok ()) ∧
    (((BoundedUniqueIDGenerator.mk 3 0 [0, 2] {1}).reclaim_id 1).2 =
      BoundedUniqueIDGenerator.mk 3 0 ([0, 2] ++ [1])
        (({1} : Finset Int).erase 1)) :=
  ⟨(C5_bounded_reclaim (BoundedUniqueIDGenerator.mk 3 0 [0, 2] {1}) 2).1.mpr
     (by decide),
   (C5_bounded_reclaim (BoundedUniqueIDGenerator.mk 3 0 [0, 2] {1}) 5).2.1
     (by decide),
   (C5_bounded_reclaim (BoundedUniqueIDGenerator.mk 3 0 [0, 2] {1}) (-1)).2.1
     (by decide),
   ((C5_bounded_reclaim (BoundedUniqueIDGenerator.mk 3 0 [0, 2] {1}) 1).2.2
     (by decide) (by decide) (by decide)).1,
   ((C5_bounded_reclaim (BoundedUniqueIDGenerator.mk 3 0 [0, 2] {1}) 1).2.2
     (by decide) (by decide) (by decide)).2⟩

/-- Bounded `get_id` on an empty pool reports `CapacityExhausted` and
leaves the state untouched. -/
theorem BoundedUniqueIDGenerator.get_id_empty (g : BoundedUniqueIDGenerator)
    (h : g.available_ids = []) :
    g.get_id = (Except.error IdError.capacityExhausted, g) := by
  simp [BoundedUniqueIDGenerator.get_id, h]

/-- Allocating as many times as the pool is long drains the pool and
returns its elements in order, each successfully. -/
theorem BoundedUniqueIDGenerator.allocN_drains (L : List Int) :
    ∀ g : BoundedUniqueIDGenerator, g.available_ids = L →
      (g.allocN L.length).1 = L.map Except.ok ∧
      (g.allocN L.length).2.available_ids = [] := by
  induction L with
  | nil =>
      intro g hg
      simp [BoundedUniqueIDGenerator.allocN, hg]
  | cons x rest ih =>
      intro g hg
      have hget : g.get_id =
          (Except.ok x,
           { g with available_ids := rest, used_ids := insert x g.used_ids }) := by
        simp [BoundedUniqueIDGenerator.get_id, hg]
      obtain ⟨h1, h2⟩ :=
        ih { g with available_ids := rest, used_ids := insert x g.used_ids } rfl
      simp [BoundedUniqueIDGenerator.allocN, hget, h1, h2]

/-- C1: a bounded allocator of capacity `C ≥ 1` serves its first `C`
allocations successfully with `C` distinct identifiers from `[0, C)`,
and the `(C+1)`-th allocation, with no intervening reclaim, fails with
`CapacityExhausted` leaving the state unchanged. -/
theorem C1_bounded_exhaustion (C : Nat) (hC : 1 ≤ C) :
    ∃ g0 : BoundedUniqueIDGenerator,
      BoundedUniqueIDGenerator.construct (C : Int) = Except.ok g0 ∧
      (g0.allocN C).1 =
        (List.range C).map (fun i : Nat => Except.ok (i : Int)) ∧
      (∃ ids : List Int, (g0.allocN C).1 = ids.map Except.ok ∧
         ids.Nodup ∧ ids.length = C ∧
         ∀ id ∈ ids, 0 ≤ id ∧ id < (C : Int)) ∧
      ((g0.allocN C).2.get_id).1 = Except.error IdError.capacityExhausted ∧
      ((g0.allocN C).2.get_id).2 = (g0.allocN C).2 := by
  have hnot : ¬ (C : Int) ≤ 0 := by omega
  have htoNat : ((C : Int)).toNat = C := Int.toNat_natCast C
  have hlen : ((List.range C).map (fun i : Nat => (i : Int))).length = C := by
    simp
  have hdrain := BoundedUniqueIDGenerator.allocN_drains
    ((List.range C).map (fun i : Nat => (i : Int)))
    ⟨(C : Int), 0, (List.range C).map (fun i : Nat => (i : Int)), ∅⟩ rfl
  rw [hlen] at hdrain
  refine ⟨⟨(C : Int), 0, (List.range C).map (fun i : Nat => (i : Int)), ∅⟩,
          ?_, ?_, ?_, ?_, ?_⟩
  · simp [BoundedUniqueIDGenerator.construct, hnot, htoNat,
          Int.ofNat_eq_natCast]
  · rw [hdrain.1]
    simp [List.map_map, Function.comp]
  · refine ⟨(List.range C).map (fun i : Nat => (i : Int)),
            hdrain.1, ?_, hlen, ?_⟩
    · exact (List.nodup_range C).map Nat.cast_injective
    · intro id hid
      simp only [List.mem_map, List.mem_range] at hid
      obtain ⟨k, hk, rfl⟩ := hid
      omega
  · rw [BoundedUniqueIDGenerator.get_id_empty _ hdrain.2]
  · rw [BoundedUniqueIDGenerator.get_id_empty _ hdrain.2]

/-- C1 witness: with capacity 3 the first three allocations return
`0, 1, 2` and the fourth fails with `CapacityExhausted`. -/
theorem C1_bounded_exhaustion_witness :
    ((BoundedUniqueIDGenerator.mk 3 0 [0, 1, 2] ∅).allocN 3).1 =
      [Except.ok 0, Except.ok 1, Except.ok 2] ∧
    (((BoundedUniqueIDGenerator.mk 3 0 [0, 1, 2] ∅).allocN 3).2.get_id).1 =
      Except.error IdError.capacityExhausted := by
  obtain ⟨g0, hg0, hres, -, herr, -⟩ := C1_bounded_exhaustion 3 (by decide)
  have h2 : Except.ok (BoundedUniqueIDGenerator.mk 3 0 [0, 1, 2] ∅) =
      Except.ok g0 :=
    (rfl : BoundedUniqueIDGenerator.construct ((3 : Nat) : Int) =
      Except.ok (BoundedUniqueIDGenerator.mk 3 0 [0, 1, 2] ∅)).symm.trans hg0
  injection h2 with h3
  rw [← h3] at hres herr
  exact ⟨hres, herr⟩

/-- The bounded allocator's conservation invariant: the free pool has
no duplicates, is disjoint from the used set, and together they hold
exactly `max_value` identifiers. -/
def BoundedInv (g : BoundedUniqueIDGenerator) : Prop :=
  g.available_ids.Nodup ∧
  (∀ id ∈ g.available_ids, id ∉ g.used_ids) ∧
  g.used_ids.card + g.available_ids.length = g.max_value.toNat

/-- Each allocate/reclaim operation preserves `BoundedInv` and the
capacity field. -/
theorem BoundedUniqueIDGenerator.applyOp_preserves
    (g : BoundedUniqueIDGenerator) (op : BoundedOp) (h : BoundedInv g) :
    BoundedInv (g.applyOp op) ∧ (g.applyOp op).max_value = g.max_value := by
  obtain ⟨hnd, hdisj, hcard⟩ := h
  cases op with
  | alloc =>
      cases hav : g.available_ids with
      | nil =>
          have hsame : g.applyOp BoundedOp.alloc = g := by
            simp [BoundedUniqueIDGenerator.applyOp,
                  BoundedUniqueIDGenerator.get_id_empty g hav]
          rw [hsame]
          exact ⟨⟨hnd, hdisj, hcard⟩, rfl⟩
      | cons x rest =>
          have happ : g.applyOp BoundedOp.alloc =
              { g with available_ids := rest,
                       used_ids := insert x g.used_ids } := by
            simp [BoundedUniqueIDGenerator.applyOp,
                  BoundedUniqueIDGenerator.get_id, hav]
          rw [happ]
          rw [hav] at hnd hdisj hcard
          have hxrest : x ∉ rest := (List.nodup_cons.mp hnd).1
          have hxused : x ∉ g.used_ids := hdisj x (List.mem_cons_self x rest)
          refine ⟨⟨(List.nodup_cons.mp hnd).2, ?_, ?_⟩, rfl⟩
          · intro id hid
            have hid' : id ∉ g.used_ids :=
              hdisj id (List.mem_cons_of_mem x hid)
            simp only [Finset.mem_insert, not_or]
            exact ⟨fun he => hxrest (he ▸ hid), hid'⟩
          · dsimp only
            rw [Finset.card_insert_of_not_mem hxused]
            simp only [List.length_cons] at hcard
            omega
  | reclaim id =>
      by_cases hcond : id < 0 ∨ g.max_value ≤ id ∨ id ∉ g.used_ids
      · have hsame : g.applyOp (BoundedOp.reclaim id) = g := by
          simp [BoundedUniqueIDGenerator.applyOp,
                BoundedUniqueIDGenerator.reclaim_id, hcond]
        rw [hsame]
        exact ⟨⟨hnd, hdisj, hcard⟩, rfl⟩
      · have hparts := hcond
        push_neg at hparts
        obtain ⟨-, -, hmem⟩ := hparts
        have happ : g.applyOp (BoundedOp.reclaim id) =
            { g with used_ids := g.used_ids.erase id,
                     available_ids := g.available_ids ++ [id] } := by
          simp only [BoundedUniqueIDGenerator.applyOp,
                     BoundedUniqueIDGenerator.reclaim_id, if_neg hcond]
        rw [happ]
        have hidnot : id ∉ g.available_ids := fun hin => hdisj id hin hmem
        refine ⟨⟨?_, ?_, ?_⟩, rfl⟩
        · refine hnd.append (List.nodup_singleton id) ?_
          intro a ha hb
          simp only [List.mem_singleton] at hb
          subst hb
          exact hidnot ha
        · intro x hx
          rcases List.mem_append.mp hx with hx | hx
          · have hx' : x ∉ g.used_ids := hdisj x hx
            simp only [Finset.mem_erase, not_and]
            intro _
            exact hx'
          · simp only [List.mem_singleton] at hx
            subst hx
            simp [Finset.mem_erase]
        · dsimp only
          rw [Finset.card_erase_of_mem hmem]
          have hpos : 0 < g.used_ids.card := Finset.card_pos.mpr ⟨id, hmem⟩
          simp only [List.length_append, List.length_singleton]
          omega

/-- Whole operation sequences preserve `BoundedInv` and the capacity
field. -/
theorem BoundedUniqueIDGenerator.runOps_preserves (ops : List BoundedOp) :
    ∀ g : BoundedUniqueIDGenerator, BoundedInv g →
      BoundedInv (g.runOps ops) ∧ (g.runOps ops).max_value = g.max_value := by
  induction ops with
  | nil =>
      intro g h
      exact ⟨h, rfl⟩
  | cons op rest ih =>
      intro g h
      have h1 := BoundedUniqueIDGenerator.applyOp_preserves g op h
      have h2 := ih (g.applyOp op) h1.1
      have hrun : g.runOps (op :: rest) = (g.applyOp op).runOps rest := rfl
      rw [hrun]
      exact ⟨h2.1, h2.2.trans h1.2⟩

/-- C2: after any sequence of allocate/reclaim operations on a bounded
allocator constructed with capacity `C`, the used set is disjoint from
the free pool and `|used_ids| + |available_ids| = C`. -/
theorem C2_bounded_conservation (C : Nat) (g0 : BoundedUniqueIDGenerator)
    (h : BoundedUniqueIDGenerator.construct (C : Int) = Except.ok g0)
    (ops : List BoundedOp) :
    (∀ id ∈ (g0.runOps ops).available_ids, id ∉ (g0.runOps ops).used_ids) ∧
    (g0.runOps ops).used_ids.card + (g0.runOps ops).available_ids.length
      = C := by
  by_cases hc : (C : Int) ≤ 0
  · simp [BoundedUniqueIDGenerator.construct, hc] at h
  · rw [BoundedUniqueIDGenerator.construct, if_neg hc] at h
    injection h with h'
    have hinv0 : BoundedInv g0 := by
      rw [← h']
      refine ⟨?_, ?_, ?_⟩
      · exact (List.nodup_range _).map
          (fun a b hab => by simpa [Int.ofNat_eq_natCast] using hab)
      · intro id hid
        simp
      · simp
    have hpres := BoundedUniqueIDGenerator.runOps_preserves ops g0 hinv0
    have hmax : (g0.runOps ops).max_value = (C : Int) := by
      rw [hpres.2, ← h']
    refine ⟨hpres.1.2.1, ?_⟩
    have hcount := hpres.1.2.2
    rw [hmax] at hcount
    simpa [Int.toNat_natCast] using hcount

/-- C2 witness: capacity 2, then one allocate and one reclaim of 0,
leaves one used and one pooled identifier — together exactly 2. -/
theorem C2_bounded_conservation_witness :
    ((BoundedUniqueIDGenerator.mk 2 0 [0, 1] ∅).runOps
        [BoundedOp.alloc, BoundedOp.reclaim 0]).used_ids.card +
      ((BoundedUniqueIDGenerator.mk 2 0 [0, 1] ∅).runOps
        [BoundedOp.alloc, BoundedOp.reclaim 0]).available_ids.length = 2 :=
  (C2_bounded_conservation 2 (BoundedUniqueIDGenerator.mk 2 0 [0, 1] ∅) rfl
    [BoundedOp.alloc, BoundedOp.reclaim 0]).2
